import Mathlib

/-!
# Model of the switch-operations / management-console workflow

A shallow embedding of `switch_ops.py`, `management_console.py` and the
Netmiko push section of `deploy_full_config.py` from the
network-automation-course repository.

Strings are modelled as `String` / `List Char`; the Python regexes are
modelled by explicit scanning functions whose greedy behaviour coincides
with the backtracking regex on these patterns (the character classes at
each boundary are disjoint, so the greedy maximal-run reading is the
unique successful one).  Network I/O is modelled by a session record of
oracles returning `Except` (an `error` result models a raised exception).
-/

namespace NetCourse

/-- Python `\s` on ASCII text: space, tab, newline, carriage return,
vertical tab, form feed. -/
def isSpaceA (c : Char) : Bool :=
  c == ' ' || c == '\t' || c == '\n' || c == '\r' || c == '\x0b' || c == '\x0c'

/-- The regex class `[a-zA-Z0-9_-]` used for the VLAN name token. -/
def isNameA (c : Char) : Bool :=
  c.isAlpha || c.isDigit || c == '_' || c == '-'

/-- The regex class `\w` = `[a-zA-Z0-9_]` used for mode words. -/
def isWordA (c : Char) : Bool :=
  c.isAlpha || c.isDigit || c == '_'

/-- Python `str.strip()`: drop leading and trailing whitespace. -/
def trimA (l : List Char) : List Char :=
  ((l.dropWhile isSpaceA).reverse.dropWhile isSpaceA).reverse

/-- Python `str.splitlines()` on `\n`, `\r\n` and `\r` terminators
(no empty final line after a trailing terminator). -/
def splitLinesAux : List Char → List Char → List (List Char)
  | [], acc => if acc.isEmpty then [] else [acc.reverse]
  | '\r' :: '\n' :: t, acc => acc.reverse :: splitLinesAux t []
  | '\r' :: t, acc => acc.reverse :: splitLinesAux t []
  | '\n' :: t, acc => acc.reverse :: splitLinesAux t []
  | c :: t, acc => splitLinesAux t (c :: acc)

def splitLines (s : String) : List (List Char) :=
  splitLinesAux s.toList []

/-- Python `str.split(',')`. -/
def splitComma : List Char → List Char → List (List Char)
  | [], acc => [acc.reverse]
  | c :: t, acc =>
    if c == ',' then acc.reverse :: splitComma t [] else splitComma t (c :: acc)

/-- The port-list comprehension of `get_vlan_brief`:
`[p.strip() for p in match.group(4).split(',') if p.strip()]`. -/
def portsSplitPy (l : List Char) : List String :=
  ((splitComma l []).filter (fun p => !(trimA p).isEmpty)).map
    (fun p => String.mk (trimA p))

/-- One parsed row of `show vlan brief` output. -/
structure VlanRecord where
  id : String
  name : String
  status : String
  ports : List String
deriving DecidableEq, Repr

def activeL : List Char := ['a', 'c', 't', 'i', 'v', 'e']
def actUnsupL : List Char := ['a', 'c', 't', '/', 'u', 'n', 's', 'u', 'p']
def suspendedL : List Char := ['s', 'u', 's', 'p', 'e', 'n', 'd', 'e', 'd']

/-- The status alternation `(active|act/unsup|suspended)` of the VLAN
row regex, tried left to right; what follows may be anything (the regex
continues with `\s*(.*)`, which always succeeds). -/
def statusOf (l : List Char) : Option (String × List Char) :=
  if activeL.isPrefixOf l then some ("active", l.drop 6)
  else if actUnsupL.isPrefixOf l then some ("act/unsup", l.drop 9)
  else if suspendedL.isPrefixOf l then some ("suspended", l.drop 9)
  else none

/-- `re.match` of `(\d+)\s+([a-zA-Z0-9_-]+)\s+(active|act/unsup|suspended)\s*(.*)`
against `line.strip()`, as performed per line by `get_vlan_brief`.
Each `+`/`*` run is the maximal one: every adjacent pair of character
classes in the pattern is disjoint, so backtracking can never shorten a
run successfully, and `(.*)` makes the tail after the status
unconditional. -/
def matchVlanLine (line : List Char) : Option VlanRecord :=
  let cs := trimA line
  let ds := cs.takeWhile Char.isDigit
  let r1 := cs.dropWhile Char.isDigit
  let w1 := r1.takeWhile isSpaceA
  let r2 := r1.dropWhile isSpaceA
  let nm := r2.takeWhile isNameA
  let r3 := r2.dropWhile isNameA
  let w2 := r3.takeWhile isSpaceA
  let r4 := r3.dropWhile isSpaceA
  if ds.isEmpty || w1.isEmpty || nm.isEmpty || w2.isEmpty then none
  else
    match statusOf r4 with
    | none => none
    | some (st, r5) =>
      some ⟨String.mk ds, String.mk nm, st, portsSplitPy (r5.dropWhile isSpaceA)⟩

/-- The parsing loop of `get_vlan_brief`: scan the output line by line,
collect every matching line's record in encounter order. -/
def parseVlanBrief (s : String) : List VlanRecord :=
  (splitLines s).filterMap matchVlanLine

/-! ## `show interfaces <name> switchport` parsing -/

/-- Result of `get_interface_vlan_assignment`'s parsing: each field is
present only when its labelled line was found in the output. -/
structure InterfaceVlanAssignment where
  access_vlan : Option String
  admin_mode : Option String
  oper_mode : Option String
deriving DecidableEq, Repr

/-- Try the pattern `<lab>\s+(<class>+)` anchored at the start of `cs`:
the literal label, at least one whitespace, then a maximal nonempty run
of `cls` characters (the captured group). -/
def tryLabelAt (lab : List Char) (cls : Char → Bool) (cs : List Char) :
    Option String :=
  if lab.isPrefixOf cs then
    let r := cs.drop lab.length
    let w := r.takeWhile isSpaceA
    let r2 := r.dropWhile isSpaceA
    let v := r2.takeWhile cls
    if w.isEmpty || v.isEmpty then none else some (String.mk v)
  else none

/-- `re.search`: try the anchored pattern at every position, left to
right, returning the first captured group found. -/
def searchLabel (lab : List Char) (cls : Char → Bool) : List Char → Option String
  | [] => tryLabelAt lab cls []
  | c :: t =>
    match tryLabelAt lab cls (c :: t) with
    | some v => some v
    | none => searchLabel lab cls t

/-- The three independent `re.search` calls of
`get_interface_vlan_assignment`: `Access Mode VLAN:\s+(\d+)`,
`Administrative Mode:\s+(\w+)`, `Operational Mode:\s+(\w+)`; a field
whose pattern is not found is simply not added to the dictionary. -/
def parseSwitchportDetail (s : String) : InterfaceVlanAssignment :=
  { access_vlan := searchLabel "Access Mode VLAN:".toList Char.isDigit s.toList
    admin_mode := searchLabel "Administrative Mode:".toList isWordA s.toList
    oper_mode := searchLabel "Operational Mode:".toList isWordA s.toList }

/-! ## Sessions and device operations

A live Netmiko connection is modelled as a pair of oracles giving the
device's response to each command; an `Except.error` result models the
call raising an exception inside the Python `try` block. -/

structure SessionBeh where
  sendCommand : String → Except String String
  sendConfigSet : List String → Except String String

/-- Outcome of a `ConnectHandler(**device_info)` call: a live session,
or one of the exception classes distinguished by `get_switch_connection`'s
two `except` clauses. -/
inductive ConnectOutcome where
  | success (s : SessionBeh)
  | timeoutExc
  | authExc
  | netmikoBaseExc
  | otherExc

/-- `get_switch_connection`: returns the connection on success; every
`except` branch (Netmiko timeout / authentication / base exceptions, and
any other exception) logs and returns `None`. -/
def get_switch_connection (o : ConnectOutcome) : Option SessionBeh :=
  match o with
  | .success s => some s
  | .timeoutExc => none
  | .authExc => none
  | .netmikoBaseExc => none
  | .otherExc => none

/-- `get_vlan_brief`: send `show vlan brief` and parse; any exception is
caught and the function returns `[]`. -/
def get_vlan_brief (s : SessionBeh) : List VlanRecord :=
  match s.sendCommand "show vlan brief" with
  | .ok out => parseVlanBrief out
  | .error _ => []

/-- `get_interface_vlan_assignment`: send the switchport query and
parse; any exception is caught and the function returns `{}`. -/
def get_interface_vlan_assignment (s : SessionBeh) (interface_name : String) :
    InterfaceVlanAssignment :=
  match s.sendCommand ("show interfaces " ++ interface_name ++ " switchport") with
  | .ok out => parseSwitchportDetail out
  | .error _ => ⟨none, none, none⟩

/-- The configuration set built by `create_vlan`:
`[f"vlan {vlan_id}", f"name {vlan_name}"]`. -/
def createVlanCommands (vlan_id vlan_name : String) : List String :=
  ["vlan " ++ vlan_id, "name " ++ vlan_name]

/-- `create_vlan`: push the two commands; `True` when `send_config_set`
returns, `False` when it raises (caught and logged). -/
def create_vlan (s : SessionBeh) (vlan_id vlan_name : String) : Bool :=
  match s.sendConfigSet (createVlanCommands vlan_id vlan_name) with
  | .ok _ => true
  | .error _ => false

/-- The configuration set built by `assign_port_to_vlan`. -/
def assignPortCommands (interface_name vlan_id : String) : List String :=
  ["interface " ++ interface_name, "switchport mode access",
   "switchport access vlan " ++ vlan_id]

/-- `assign_port_to_vlan`: push the three commands; `True` when
`send_config_set` returns, `False` when it raises (caught and logged). -/
def assign_port_to_vlan (s : SessionBeh) (interface_name vlan_id : String) : Bool :=
  match s.sendConfigSet (assignPortCommands interface_name vlan_id) with
  | .ok _ => true
  | .error _ => false

/-! ## The management console

Each handler is modelled as the trace of observable events it performs:
a connection attempt, a successful open, a disconnect, and printed
messages.  The connection outcome and the operator's typed inputs are
parameters (the environment). -/

inductive Ev where
  | connAttempt
  | opened
  | closed
  | msg (text : String)
deriving DecidableEq, Repr

/-- One entry of `MANAGED_SWITCHES` in `config.py`. -/
structure DeviceDescriptor where
  device_type : String
  host : String
  username : String
  password : String
  secret : String
  port : Nat
deriving DecidableEq, Repr

def opens (t : List Ev) : Nat := t.countP (· == Ev.opened)

def closes (t : List Ev) : Nat := t.countP (· == Ev.closed)

/-- A block of printed lines. -/
def msgs (l : List String) : List Ev := l.map Ev.msg

/-- `list_vlans(selected_switch_info)` in `management_console.py`. -/
def list_vlans (sel : Option DeviceDescriptor) (conn : ConnectOutcome) : List Ev :=
  match sel with
  | none => [.msg "No switch selected."]
  | some d =>
    match get_switch_connection conn with
    | some s =>
      let vlans := get_vlan_brief s
      [.connAttempt, .opened] ++
        msgs (if vlans.isEmpty then ["No VLANs found or error retrieving."]
          else vlans.map (fun v => "ID: " ++ v.id ++ ", Name: " ++ v.name)) ++
        [.closed]
    | none => [.connAttempt, .msg ("Failed to connect to " ++ d.host ++ ".")]

/-- `list_ports_in_vlan(selected_switch_info)`: the selection check
comes first; the VLAN id is only read from the operator afterwards. -/
def list_ports_in_vlan (sel : Option DeviceDescriptor) (vlan_id : String)
    (conn : ConnectOutcome) : List Ev :=
  match sel with
  | none => [.msg "No switch selected."]
  | some d =>
    match get_switch_connection conn with
    | some s =>
      let hit := (get_vlan_brief s).find? (fun v => v.id == vlan_id)
      [.connAttempt, .opened] ++
        msgs (match hit with
          | some v => ["VLAN " ++ vlan_id ++ " (" ++ v.name ++ ") Ports"]
          | none => ["VLAN " ++ vlan_id ++ " not found or has no assigned ports."]) ++
        [.closed]
    | none => [.connAttempt, .msg ("Failed to connect to " ++ d.host ++ ".")]

/-- `handle_create_vlan(selected_switch_info)`. -/
def handle_create_vlan (sel : Option DeviceDescriptor) (vlan_id vlan_name : String)
    (conn : ConnectOutcome) : List Ev :=
  match sel with
  | none => [.msg "No switch selected."]
  | some d =>
    match get_switch_connection conn with
    | some s =>
      [.connAttempt, .opened] ++
        msgs (if create_vlan s vlan_id vlan_name then
            ["Successfully sent commands to create VLAN " ++ vlan_id ++ "."]
          else ["Failed to create VLAN " ++ vlan_id ++ "."]) ++
        [.closed]
    | none => [.connAttempt, .msg ("Failed to connect to " ++ d.host ++ ".")]

/-- `handle_assign_port_to_vlan(selected_switch_info)`: on a successful
push it re-queries the same session for verification before the single
`disconnect()`. -/
def handle_assign_port_to_vlan (sel : Option DeviceDescriptor)
    (interface_name vlan_id : String) (conn : ConnectOutcome) : List Ev :=
  match sel with
  | none => [.msg "No switch selected."]
  | some d =>
    match get_switch_connection conn with
    | some s =>
      [.connAttempt, .opened] ++
        msgs (if assign_port_to_vlan s interface_name vlan_id then
            let info := get_interface_vlan_assignment s interface_name
            ["Successfully sent commands to assign " ++ interface_name ++ "."] ++
              (if info ≠ ⟨none, none, none⟩ ∧ info.access_vlan = some vlan_id then
                ["Verification: confirmed."]
              else ["Verification: could not confirm."])
          else ["Failed to assign " ++ interface_name ++ "."]) ++
        [.closed]
    | none => [.connAttempt, .msg ("Failed to connect to " ++ d.host ++ ".")]

/-! ## The one-shot deployment script

`deploy_full_configuration` in `deploy_full_config.py`.  The stages
before the push (YAML load, router lookup, Jinja2 render) involve the
filesystem and the template engine; they are abstracted into the `pre`
parameter: `none` models any of them aborting (the function returns
`False` before any connection), `some cmds` models reaching the push
stage with `cmds` the non-blank rendered lines.  The push itself is
modelled faithfully: `with ConnectHandler(...)` closes the session on
every exit from the block, raising included. -/
def deploy_full_configuration (pre : Option (List String))
    (conn : ConnectOutcome) : List Ev × Bool :=
  match pre with
  | none => ([.msg "data load, lookup or render failed"], false)
  | some cmds =>
    if cmds.isEmpty then
      ([.msg "Generated configuration is empty. Aborting deployment."], false)
    else
      match conn with
      | .success s =>
        match s.sendConfigSet cmds with
        | .ok _ => ([.connAttempt, .opened, .closed], true)
        | .error _ => ([.connAttempt, .opened, .closed], false)
      | _ => ([.connAttempt, .msg "connection or authentication error"], false)

/-! ## Switch selection -/

/-- Python `int(str)` on a plain ASCII decimal string: surrounding
whitespace allowed, optional sign, then at least one digit. -/
def digitsVal (ds : List Char) : Option Int :=
  if !ds.isEmpty && ds.all Char.isDigit then
    some (ds.foldl (fun a c => a * 10 + ((c.toNat : Int) - 48)) 0)
  else none

def parseIntPy (s : String) : Option Int :=
  match trimA s.toList with
  | '+' :: ds => digitsVal ds
  | '-' :: ds => (digitsVal ds).map (fun n => -n)
  | ds => digitsVal ds

/-- The `while True` prompt loop of `select_switch`, driven by the list
of lines the operator will type: invalid numbers and out-of-range
choices are rejected and the loop re-prompts on the next input.
`none` means the operator input was exhausted with the loop still
prompting. -/
def selectLoop (switches : List DeviceDescriptor) :
    List String → Option (Option DeviceDescriptor)
  | [] => none
  | i :: rest =>
    match parseIntPy i with
    | some n =>
      if h : 1 ≤ n ∧ n ≤ (switches.length : Int) then
        some (some (switches.get ⟨n.toNat - 1, by omega⟩))
      else selectLoop switches rest
    | none => selectLoop switches rest

/-- `select_switch()`: returns `None` when `MANAGED_SWITCHES` is empty,
otherwise loops until a valid 1-based index is typed. -/
def select_switch (switches : List DeviceDescriptor) (inputs : List String) :
    Option (Option DeviceDescriptor) :=
  if switches.isEmpty then some none
  else selectLoop switches inputs

/-! ## Auxiliary specification-side definitions -/

/-- Whether `lab` occurs as a contiguous substring of the text. -/
def occursB (lab : List Char) : List Char → Bool
  | [] => lab.isPrefixOf []
  | c :: t => lab.isPrefixOf (c :: t) || occursB lab t

/-- The port-list rule as the specification words it: split on commas,
trim each token, drop the empty ones. -/
def specPortsSplit (l : List Char) : List String :=
  ((splitComma l []).map (fun p => String.mk (trimA p))).filter
    (fun s => s ≠ "")

/-- A session whose every call raises. -/
def raisingSession : SessionBeh :=
  ⟨fun _ => .error "connection dropped", fun _ => .error "connection dropped"⟩

/-- A mocked session whose `send_config_set` answers `"VLAN 999 added"`. -/
def vlan999Session : SessionBeh :=
  ⟨fun _ => .ok "", fun _ => .ok "VLAN 999 added"⟩

/-- A sample managed-switch entry, as in `config.py`. -/
def sampleSwitch : DeviceDescriptor :=
  ⟨"cisco_ios", "192.168.1.10", "admin", "pw", "pw", 22⟩

/-- The VLAN row pattern as the specification words it: after stripping,
the line is a leading nonempty digit run, whitespace, a nonempty name
token over letters/digits/underscore/hyphen, whitespace, one of the
three status tokens, then arbitrary trailing text (the optional port
list). -/
def specVlanLine (line : List Char) : Prop :=
  ∃ ds w1 nm w2 st rest,
    trimA line = ds ++ w1 ++ nm ++ w2 ++ st ++ rest ∧
    ds ≠ [] ∧ (∀ c ∈ ds, Char.isDigit c = true) ∧
    w1 ≠ [] ∧ (∀ c ∈ w1, isSpaceA c = true) ∧
    nm ≠ [] ∧ (∀ c ∈ nm, isNameA c = true) ∧
    w2 ≠ [] ∧ (∀ c ∈ w2, isSpaceA c = true) ∧
    (st = activeL ∨ st = actUnsupL ∨ st = suspendedL)

/-! # Theorems -/

/-- **C1.** `parseVlanBrief` is total: it is a function defined on every
input string — empty, binary-like garbage, or headers and separators
only — and returns a (possibly empty) list of records; no failure is
possible. -/
theorem parseVlanBrief_total :
    (∀ s : String, ∃ recs : List VlanRecord, parseVlanBrief s = recs) ∧
    parseVlanBrief "" = [] ∧
    parseVlanBrief
      "VLAN Name                             Status    Ports\n---- -------------------------------- --------- ----" = [] ∧
    parseVlanBrief "\x00\x01\xff\x02 !! garbage ~~" = [] :=
  ⟨fun _ => ⟨_, rfl⟩, by decide, by decide, by decide⟩

/-- **C2, counterexample.** The claim says a caller can tell which of
the three failure kinds occurred from `get_switch_connection`'s return
value; but an authentication failure and a timeout produce the very same
returned value (`None`), although they are different outcomes. -/
theorem connection_failure_kinds_not_discriminable :
    get_switch_connection ConnectOutcome.authExc =
      get_switch_connection ConnectOutcome.timeoutExc ∧
    ConnectOutcome.authExc ≠ ConnectOutcome.timeoutExc :=
  ⟨rfl, fun h => ConnectOutcome.noConfusion h⟩

/-- **C2, amended.** `get_switch_connection` returns the live session on
success and `None` on every failing open — timeout, authentication,
other Netmiko errors and unexpected exceptions alike; the failure kinds
are distinguished only in log output, never in the returned value. -/
theorem get_switch_connection_none_on_failure :
    (∀ s, get_switch_connection (.success s) = some s) ∧
    get_switch_connection .timeoutExc = none ∧
    get_switch_connection .authExc = none ∧
    get_switch_connection .netmikoBaseExc = none ∧
    get_switch_connection .otherExc = none :=
  ⟨fun _ => rfl, rfl, rfl, rfl, rfl⟩


/-- Comprehension form (filter before map) agrees with the spec's
map-then-drop-empties form. -/
lemma portsSplit_eq_spec (ps : List (List Char)) :
    ((ps.filter fun p => !(trimA p).isEmpty).map fun p => String.mk (trimA p)) =
    ((ps.map fun p => String.mk (trimA p)).filter fun s => decide (s ≠ "")) := by
  induction ps with
  | nil => rfl
  | cons p t ih =>
    cases hp : trimA p with
    | nil => simp [List.filter_cons, List.map_cons, hp, ih]
    | cons c cs =>
      have h2 : (String.mk (c :: cs)) ≠ "" := by intro h; rw [String.ext_iff] at h; exact List.noConfusion h
      simp [List.filter_cons, List.map_cons, hp, h2, ih]

/-- **C5.** -/
theorem ports_split_trim_drop_empty :
    (∀ l : List Char, portsSplitPy l = specPortsSplit l) ∧
    parseVlanBrief "20 MGMT active Gi0/1," =
      [⟨"20", "MGMT", "active", ["Gi0/1"]⟩] :=
  ⟨fun l => portsSplit_eq_spec (splitComma l []), by decide⟩


lemma tryLabelAt_some_isPrefixOf {lab : List Char} {cls : Char → Bool}
    {cs : List Char} {v : String} (h : tryLabelAt lab cls cs = some v) :
    lab.isPrefixOf cs = true := by
  unfold tryLabelAt at h
  by_cases hp : lab.isPrefixOf cs = true
  · exact hp
  · simp [hp] at h

lemma searchLabel_some_occurs {lab : List Char} {cls : Char → Bool} :
    ∀ {cs : List Char} {v : String},
      searchLabel lab cls cs = some v → occursB lab cs = true := by
  intro cs
  induction cs with
  | nil =>
    intro v h
    unfold searchLabel at h
    unfold occursB
    exact tryLabelAt_some_isPrefixOf h
  | cons c t ih =>
    intro v h
    unfold searchLabel at h
    unfold occursB
    cases htry : tryLabelAt lab cls (c :: t) with
    | some w => rw [tryLabelAt_some_isPrefixOf htry]; rfl
    | none => rw [htry] at h; rw [ih h]; simp

/-- **C6.** -/
theorem switchport_fields_independent_optional :
    parseSwitchportDetail "Administrative Mode: trunk" =
      ⟨none, some "trunk", none⟩ ∧
    (∀ s : String, occursB "Access Mode VLAN:".toList s.toList = false →
      (parseSwitchportDetail s).access_vlan = none) ∧
    (∀ s : String, occursB "Administrative Mode:".toList s.toList = false →
      (parseSwitchportDetail s).admin_mode = none) ∧
    (∀ s : String, occursB "Operational Mode:".toList s.toList = false →
      (parseSwitchportDetail s).oper_mode = none) := by
  refine ⟨by decide, ?_, ?_, ?_⟩ <;>
    · intro s h
      cases heq : searchLabel _ _ s.toList with
      | none => exact heq
      | some v => rw [searchLabel_some_occurs heq] at h; cases h

theorem switchport_fields_witness :
    (parseSwitchportDetail "nothing here").access_vlan = none ∧
    (parseSwitchportDetail "nothing here").admin_mode = none ∧
    (parseSwitchportDetail "nothing here").oper_mode = none :=
  ⟨switchport_fields_independent_optional.2.1 "nothing here" (by decide),
   switchport_fields_independent_optional.2.2.1 "nothing here" (by decide),
   switchport_fields_independent_optional.2.2.2 "nothing here" (by decide)⟩


/-- **C7.** -/
theorem operations_catch_session_exceptions :
    (∀ (s : SessionBeh) (e : String),
      s.sendCommand "show vlan brief" = .error e → get_vlan_brief s = []) ∧
    (∀ (s : SessionBeh) (ifn e : String),
      s.sendCommand ("show interfaces " ++ ifn ++ " switchport") = .error e →
      get_interface_vlan_assignment s ifn = ⟨none, none, none⟩) ∧
    (∀ (s : SessionBeh) (vid vnm e : String),
      s.sendConfigSet (createVlanCommands vid vnm) = .error e →
      create_vlan s vid vnm = false) ∧
    (∀ (s : SessionBeh) (ifn vid e : String),
      s.sendConfigSet (assignPortCommands ifn vid) = .error e →
      assign_port_to_vlan s ifn vid = false) := by
  refine ⟨?_, ?_, ?_, ?_⟩
  · intro s e h; unfold get_vlan_brief; rw [h]
  · intro s ifn e h; unfold get_interface_vlan_assignment; rw [h]
  · intro s vid vnm e h; unfold create_vlan; rw [h]
  · intro s ifn vid e h; unfold assign_port_to_vlan; rw [h]

theorem operations_catch_witness :
    get_vlan_brief raisingSession = [] ∧
    get_interface_vlan_assignment raisingSession "Gi0/1" = ⟨none, none, none⟩ ∧
    create_vlan raisingSession "999" "TEST" = false ∧
    assign_port_to_vlan raisingSession "Gi0/1" "999" = false :=
  ⟨operations_catch_session_exceptions.1 raisingSession "connection dropped" rfl,
   operations_catch_session_exceptions.2.1 raisingSession "Gi0/1" "connection dropped" rfl,
   operations_catch_session_exceptions.2.2.1 raisingSession "999" "TEST" "connection dropped" rfl,
   operations_catch_session_exceptions.2.2.2 raisingSession "Gi0/1" "999" "connection dropped" rfl⟩

/-- **C8.** -/
theorem create_vlan_commands_and_success :
    createVlanCommands "999" "TEST" = ["vlan 999", "name TEST"] ∧
    (∀ (s : SessionBeh) (vlan_id vlan_name out : String),
      s.sendConfigSet (createVlanCommands vlan_id vlan_name) = .ok out →
      create_vlan s vlan_id vlan_name = true) :=
  ⟨rfl, fun s vid vnm out h => by unfold create_vlan; rw [h]⟩

theorem create_vlan_commands_witness :
    create_vlan vlan999Session "999" "TEST" = true :=
  create_vlan_commands_and_success.2 vlan999Session "999" "TEST" "VLAN 999 added" rfl

/-- **C9.** -/
theorem no_device_selected_is_noop :
    (∀ conn, list_vlans none conn = [.msg "No switch selected."]) ∧
    (∀ vid conn, list_ports_in_vlan none vid conn = [.msg "No switch selected."]) ∧
    (∀ vid vnm conn, handle_create_vlan none vid vnm conn = [.msg "No switch selected."]) ∧
    (∀ ifn vid conn, handle_assign_port_to_vlan none ifn vid conn = [.msg "No switch selected."]) ∧
    (∀ conn, Ev.connAttempt ∉ list_vlans none conn) ∧
    (∀ vid conn, Ev.connAttempt ∉ list_ports_in_vlan none vid conn) ∧
    (∀ vid vnm conn, Ev.connAttempt ∉ handle_create_vlan none vid vnm conn) ∧
    (∀ ifn vid conn, Ev.connAttempt ∉ handle_assign_port_to_vlan none ifn vid conn) := by
  refine ⟨fun _ => rfl, fun _ _ => rfl, fun _ _ _ => rfl, fun _ _ _ => rfl,
    ?_, ?_, ?_, ?_⟩ <;> intros <;> simp [list_vlans, list_ports_in_vlan,
      handle_create_vlan, handle_assign_port_to_vlan]


lemma opens_append (a b : List Ev) : opens (a ++ b) = opens a + opens b :=
  List.countP_append _ _ _

lemma closes_append (a b : List Ev) : closes (a ++ b) = closes a + closes b :=
  List.countP_append _ _ _

lemma opens_msgs (xs : List String) : opens (msgs xs) = 0 := by
  apply List.countP_eq_zero.mpr
  intro e he
  rcases List.mem_map.1 he with ⟨t, _, rfl⟩
  simp

lemma closes_msgs (xs : List String) : closes (msgs xs) = 0 := by
  apply List.countP_eq_zero.mpr
  intro e he
  rcases List.mem_map.1 he with ⟨t, _, rfl⟩
  simp

/-- **C3.** -/
theorem every_opened_session_closed_once :
    (∀ sel conn, opens (list_vlans sel conn) = closes (list_vlans sel conn) ∧
      opens (list_vlans sel conn) ≤ 1) ∧
    (∀ sel vid conn, opens (list_ports_in_vlan sel vid conn) =
      closes (list_ports_in_vlan sel vid conn) ∧
      opens (list_ports_in_vlan sel vid conn) ≤ 1) ∧
    (∀ sel vid vnm conn, opens (handle_create_vlan sel vid vnm conn) =
      closes (handle_create_vlan sel vid vnm conn) ∧
      opens (handle_create_vlan sel vid vnm conn) ≤ 1) ∧
    (∀ sel ifn vid conn, opens (handle_assign_port_to_vlan sel ifn vid conn) =
      closes (handle_assign_port_to_vlan sel ifn vid conn) ∧
      opens (handle_assign_port_to_vlan sel ifn vid conn) ≤ 1) ∧
    (∀ pre conn, opens (deploy_full_configuration pre conn).1 =
      closes (deploy_full_configuration pre conn).1 ∧
      opens (deploy_full_configuration pre conn).1 ≤ 1) := by
  refine ⟨?_, ?_, ?_, ?_, ?_⟩
  · intro sel conn
    cases sel with
    | none => exact ⟨rfl, Nat.zero_le 1⟩
    | some d =>
      cases conn with
      | success s =>
        simp only [list_vlans, get_switch_connection, opens_append,
          closes_append, opens_msgs, closes_msgs]
        exact ⟨by decide, by decide⟩
      | timeoutExc => exact ⟨rfl, Nat.zero_le 1⟩
      | authExc => exact ⟨rfl, Nat.zero_le 1⟩
      | netmikoBaseExc => exact ⟨rfl, Nat.zero_le 1⟩
      | otherExc => exact ⟨rfl, Nat.zero_le 1⟩
  · intro sel vid conn
    cases sel with
    | none => exact ⟨rfl, Nat.zero_le 1⟩
    | some d =>
      cases conn with
      | success s =>
        simp only [list_ports_in_vlan, get_switch_connection, opens_append,
          closes_append, opens_msgs, closes_msgs]
        exact ⟨by decide, by decide⟩
      | timeoutExc => exact ⟨rfl, Nat.zero_le 1⟩
      | authExc => exact ⟨rfl, Nat.zero_le 1⟩
      | netmikoBaseExc => exact ⟨rfl, Nat.zero_le 1⟩
      | otherExc => exact ⟨rfl, Nat.zero_le 1⟩
  · intro sel vid vnm conn
    cases sel with
    | none => exact ⟨rfl, Nat.zero_le 1⟩
    | some d =>
      cases conn with
      | success s =>
        simp only [handle_create_vlan, get_switch_connection, opens_append,
          closes_append, opens_msgs, closes_msgs]
        exact ⟨by decide, by decide⟩
      | timeoutExc => exact ⟨rfl, Nat.zero_le 1⟩
      | authExc => exact ⟨rfl, Nat.zero_le 1⟩
      | netmikoBaseExc => exact ⟨rfl, Nat.zero_le 1⟩
      | otherExc => exact ⟨rfl, Nat.zero_le 1⟩
  · intro sel ifn vid conn
    cases sel with
    | none => exact ⟨rfl, Nat.zero_le 1⟩
    | some d =>
      cases conn with
      | success s =>
        simp only [handle_assign_port_to_vlan, get_switch_connection,
          opens_append, closes_append, opens_msgs, closes_msgs]
        exact ⟨by decide, by decide⟩
      | timeoutExc => exact ⟨rfl, Nat.zero_le 1⟩
      | authExc => exact ⟨rfl, Nat.zero_le 1⟩
      | netmikoBaseExc => exact ⟨rfl, Nat.zero_le 1⟩
      | otherExc => exact ⟨rfl, Nat.zero_le 1⟩
  · intro pre conn
    cases pre with
    | none => exact ⟨rfl, Nat.zero_le 1⟩
    | some cmds =>
      cases hc : cmds.isEmpty with
      | true =>
        have hd : deploy_full_configuration (some cmds) conn =
            ([.msg "Generated configuration is empty. Aborting deployment."], false) := by
          simp [deploy_full_configuration, hc]
        rw [hd]
        exact ⟨rfl, Nat.zero_le 1⟩
      | false =>
        cases conn with
        | success s =>
          cases hs : s.sendConfigSet cmds with
          | ok out =>
            have hd : deploy_full_configuration (some cmds) (.success s) =
                ([.connAttempt, .opened, .closed], true) := by
              simp [deploy_full_configuration, hc, hs]
            rw [hd]
            exact ⟨rfl, by decide⟩
          | error e =>
            have hd : deploy_full_configuration (some cmds) (.success s) =
                ([.connAttempt, .opened, .closed], false) := by
              simp [deploy_full_configuration, hc, hs]
            rw [hd]
            exact ⟨rfl, by decide⟩
        | timeoutExc =>
          have hd : deploy_full_configuration (some cmds) .timeoutExc =
              ([.connAttempt, .msg "connection or authentication error"], false) := by
            simp [deploy_full_configuration, hc]
          rw [hd]
          exact ⟨rfl, Nat.zero_le 1⟩
        | authExc =>
          have hd : deploy_full_configuration (some cmds) .authExc =
              ([.connAttempt, .msg "connection or authentication error"], false) := by
            simp [deploy_full_configuration, hc]
          rw [hd]
          exact ⟨rfl, Nat.zero_le 1⟩
        | netmikoBaseExc =>
          have hd : deploy_full_configuration (some cmds) .netmikoBaseExc =
              ([.connAttempt, .msg "connection or authentication error"], false) := by
            simp [deploy_full_configuration, hc]
          rw [hd]
          exact ⟨rfl, Nat.zero_le 1⟩
        | otherExc =>
          have hd : deploy_full_configuration (some cmds) .otherExc =
              ([.connAttempt, .msg "connection or authentication error"], false) := by
            simp [deploy_full_configuration, hc]
          rw [hd]
          exact ⟨rfl, Nat.zero_le 1⟩


lemma selectLoop_ne_some_none (switches : List DeviceDescriptor) :
    ∀ inputs, selectLoop switches inputs ≠ some none := by
  intro inputs
  induction inputs with
  | nil => simp [selectLoop]
  | cons i rest ih =>
    cases hp : parseIntPy i with
    | none => simpa [selectLoop, hp] using ih
    | some n =>
      by_cases h : 1 ≤ n ∧ n ≤ (switches.length : Int)
      · simp [selectLoop, hp, h]
      · simpa [selectLoop, hp, h] using ih

lemma selectLoop_some_spec (switches : List DeviceDescriptor) :
    ∀ inputs d, selectLoop switches inputs = some (some d) →
      ∃ inp n, inp ∈ inputs ∧ parseIntPy inp = some n ∧
        1 ≤ n ∧ n ≤ (switches.length : Int) ∧
        switches.get? (n.toNat - 1) = some d := by
  intro inputs
  induction inputs with
  | nil => intro d h; simp [selectLoop] at h
  | cons i rest ih =>
    intro d h
    rw [selectLoop] at h
    cases hp : parseIntPy i with
    | none =>
      simp only [hp] at h
      obtain ⟨inp, n, hmem, hpi, h1, h2, hget⟩ := ih d h
      exact ⟨inp, n, List.mem_cons_of_mem _ hmem, hpi, h1, h2, hget⟩
    | some n =>
      simp only [hp] at h
      by_cases hr : 1 ≤ n ∧ n ≤ (switches.length : Int)
      · rw [dif_pos hr] at h
        have hd : switches.get ⟨n.toNat - 1, by omega⟩ = d :=
          Option.some.inj (Option.some.inj h)
        refine ⟨i, n, List.mem_cons_self i rest, hp, hr.1, hr.2, ?_⟩
        rw [List.get?_eq_get (by omega : n.toNat - 1 < switches.length)]
        exact congrArg some hd
      · rw [dif_neg hr] at h
        obtain ⟨inp, m, hmem, hpi, h1, h2, hget⟩ := ih d h
        exact ⟨inp, m, List.mem_cons_of_mem _ hmem, hpi, h1, h2, hget⟩

/-- **C10.** -/
theorem select_switch_safe :
    ∀ (switches : List DeviceDescriptor) (inputs : List String),
      (select_switch switches inputs = some none ↔ switches = []) ∧
      (∀ i rest, parseIntPy i = none →
        select_switch switches (i :: rest) = select_switch switches rest) ∧
      (∀ d, select_switch switches inputs = some (some d) →
        ∃ inp n, inp ∈ inputs ∧ parseIntPy inp = some n ∧
          1 ≤ n ∧ n ≤ (switches.length : Int) ∧
          switches.get? (n.toNat - 1) = some d) := by
  intro switches inputs
  refine ⟨⟨?_, ?_⟩, ?_, ?_⟩
  · intro h
    by_cases hsw : switches.isEmpty = true
    · exact List.isEmpty_iff.mp hsw
    · exfalso
      unfold select_switch at h
      rw [if_neg hsw] at h
      exact selectLoop_ne_some_none _ _ h
  · intro h
    subst h
    rfl
  · intro i rest hp
    unfold select_switch
    by_cases hsw : switches.isEmpty = true
    · rw [if_pos hsw, if_pos hsw]
    · rw [if_neg hsw, if_neg hsw, selectLoop, hp]
  · intro d h
    by_cases hsw : switches.isEmpty = true
    · unfold select_switch at h
      rw [if_pos hsw] at h
      simp at h
    · unfold select_switch at h
      rw [if_neg hsw] at h
      exact selectLoop_some_spec switches inputs d h

theorem select_switch_witness :
    select_switch [] ["2"] = some none ∧
    select_switch [sampleSwitch] ["abc", "1"] = select_switch [sampleSwitch] ["1"] ∧
    (∃ inp n, inp ∈ ["1"] ∧ parseIntPy inp = some n ∧
      1 ≤ n ∧ n ≤ (([sampleSwitch] : List DeviceDescriptor).length : Int) ∧
      ([sampleSwitch] : List DeviceDescriptor).get? (n.toNat - 1) = some sampleSwitch) :=
  ⟨(select_switch_safe [] ["2"]).1.mpr rfl,
   (select_switch_safe [sampleSwitch] ["abc", "1"]).2.1 "abc" ["1"] (by decide),
   (select_switch_safe [sampleSwitch] ["1"]).2.2 sampleSwitch (by decide)⟩


lemma span_append {p : Char → Bool} :
    ∀ xs ys : List Char, (∀ c ∈ xs, p c = true) →
      (∀ d, ys.head? = some d → p d = false) →
      (xs ++ ys).takeWhile p = xs ∧ (xs ++ ys).dropWhile p = ys := by
  intro xs
  induction xs with
  | nil =>
    intro ys hxs hy
    cases ys with
    | nil => exact ⟨rfl, rfl⟩
    | cons d t =>
      have hd : p d = false := hy d rfl
      simp [List.takeWhile_cons, List.dropWhile_cons, hd]
  | cons x xs ih =>
    intro ys hxs hy
    have hx : p x = true := hxs x (List.mem_cons_self x xs)
    have hr := ih ys (fun c hc => hxs c (List.mem_cons_of_mem _ hc)) hy
    simp [List.takeWhile_cons, List.dropWhile_cons, hx, hr.1, hr.2]

lemma space_not_digit {c : Char} (h : isSpaceA c = true) : Char.isDigit c = false := by
  simp only [isSpaceA, Bool.or_eq_true, beq_iff_eq] at h
  rcases h with ((((rfl | rfl) | rfl) | rfl) | rfl) | rfl <;> decide

lemma space_not_name {c : Char} (h : isSpaceA c = true) : isNameA c = false := by
  simp only [isSpaceA, Bool.or_eq_true, beq_iff_eq] at h
  rcases h with ((((rfl | rfl) | rfl) | rfl) | rfl) | rfl <;> decide

lemma name_not_space {c : Char} (h : isNameA c = true) : isSpaceA c = false := by
  cases hc : isSpaceA c with
  | false => rfl
  | true => rw [space_not_name hc] at h; cases h

lemma statusOf_active (rest : List Char) :
    statusOf (activeL ++ rest) = some ("active", rest) := by
  simp [statusOf, activeL, List.isPrefixOf]

lemma statusOf_actUnsup (rest : List Char) :
    statusOf (actUnsupL ++ rest) = some ("act/unsup", rest) := by
  simp [statusOf, activeL, actUnsupL, List.isPrefixOf]

lemma statusOf_suspended (rest : List Char) :
    statusOf (suspendedL ++ rest) = some ("suspended", rest) := by
  simp [statusOf, activeL, actUnsupL, suspendedL, List.isPrefixOf]

lemma statusOf_eq_some {l r : List Char} {st : String}
    (h : statusOf l = some (st, r)) :
    (st = "active" ∧ l = activeL ++ r) ∨
    (st = "act/unsup" ∧ l = actUnsupL ++ r) ∨
    (st = "suspended" ∧ l = suspendedL ++ r) := by
  unfold statusOf at h
  by_cases h1 : activeL.isPrefixOf l = true
  · rw [if_pos h1] at h
    obtain ⟨t, ht⟩ := List.isPrefixOf_iff_prefix.mp h1
    have hinj := Option.some.inj h
    have hst : st = "active" := (congrArg Prod.fst hinj).symm
    have hr : l.drop 6 = r := congrArg Prod.snd hinj
    rw [← ht] at hr
    have hdt : (activeL ++ t).drop 6 = t := by simp [activeL]
    rw [hdt] at hr
    exact Or.inl ⟨hst, by rw [← ht, hr]⟩
  · rw [if_neg h1] at h
    by_cases h2 : actUnsupL.isPrefixOf l = true
    · rw [if_pos h2] at h
      obtain ⟨t, ht⟩ := List.isPrefixOf_iff_prefix.mp h2
      have hinj := Option.some.inj h
      have hst : st = "act/unsup" := (congrArg Prod.fst hinj).symm
      have hr : l.drop 9 = r := congrArg Prod.snd hinj
      rw [← ht] at hr
      have hdt : (actUnsupL ++ t).drop 9 = t := by simp [actUnsupL]
      rw [hdt] at hr
      exact Or.inr (Or.inl ⟨hst, by rw [← ht, hr]⟩)
    · rw [if_neg h2] at h
      by_cases h3 : suspendedL.isPrefixOf l = true
      · rw [if_pos h3] at h
        obtain ⟨t, ht⟩ := List.isPrefixOf_iff_prefix.mp h3
        have hinj := Option.some.inj h
        have hst : st = "suspended" := (congrArg Prod.fst hinj).symm
        have hr : l.drop 9 = r := congrArg Prod.snd hinj
        rw [← ht] at hr
        have hdt : (suspendedL ++ t).drop 9 = t := by simp [suspendedL]
        rw [hdt] at hr
        exact Or.inr (Or.inr ⟨hst, by rw [← ht, hr]⟩)
      · rw [if_neg h3] at h
        cases h

lemma matchVlanLine_isSome_of_spec {line : List Char} (hs : specVlanLine line) :
    (matchVlanLine line).isSome = true := by
  obtain ⟨ds, w1, nm, w2, st, rest, heq, hds, hdsall, hw1ne, hw1all,
    hnmne, hnmall, hw2ne, hw2all, hst⟩ := hs
  obtain ⟨d1, w1t, rfl⟩ := List.exists_cons_of_ne_nil hw1ne
  obtain ⟨n1, nmt, rfl⟩ := List.exists_cons_of_ne_nil hnmne
  obtain ⟨e1, w2t, rfl⟩ := List.exists_cons_of_ne_nil hw2ne
  have heq2 : trimA line =
      ds ++ ((d1 :: w1t) ++ ((n1 :: nmt) ++ ((e1 :: w2t) ++ (st ++ rest)))) := by
    rw [heq]; simp [List.append_assoc]
  have hsthead : ∀ d, (st ++ rest).head? = some d → isSpaceA d = false := by
    rcases hst with rfl | rfl | rfl <;>
      · intro d hd
        simp [activeL, actUnsupL, suspendedL] at hd
        subst hd
        decide
  have h1 := span_append (p := Char.isDigit) ds
    ((d1 :: w1t) ++ ((n1 :: nmt) ++ ((e1 :: w2t) ++ (st ++ rest)))) hdsall
    (by intro d hd
        simp at hd
        subst hd
        exact space_not_digit (hw1all d1 (List.mem_cons_self d1 w1t)))
  have h2 := span_append (p := isSpaceA) (d1 :: w1t)
    ((n1 :: nmt) ++ ((e1 :: w2t) ++ (st ++ rest))) hw1all
    (by intro d hd
        simp at hd
        subst hd
        exact name_not_space (hnmall n1 (List.mem_cons_self n1 nmt)))
  have h3 := span_append (p := isNameA) (n1 :: nmt)
    ((e1 :: w2t) ++ (st ++ rest)) hnmall
    (by intro d hd
        simp at hd
        subst hd
        exact space_not_name (hw2all e1 (List.mem_cons_self e1 w2t)))
  have h4 := span_append (p := isSpaceA) (e1 :: w2t) (st ++ rest) hw2all hsthead
  have hdse : ds.isEmpty = false := by
    cases ds with
    | nil => exact absurd rfl hds
    | cons a b => rfl
  simp only [matchVlanLine]
  rw [heq2, h1.1, h1.2, h2.1, h2.2, h3.1, h3.2, h4.1, h4.2]
  rcases hst with rfl | rfl | rfl <;>
    simp [hdse, statusOf_active, statusOf_actUnsup, statusOf_suspended]

lemma spec_of_matchVlanLine_isSome {line : List Char}
    (h : (matchVlanLine line).isSome = true) : specVlanLine line := by
  simp only [matchVlanLine] at h
  set cs := trimA line with hcs
  set ds := cs.takeWhile Char.isDigit with hds
  set r1 := cs.dropWhile Char.isDigit with hr1
  set w1 := r1.takeWhile isSpaceA with hw1
  set r2 := r1.dropWhile isSpaceA with hr2
  set nm := r2.takeWhile isNameA with hnm
  set r3 := r2.dropWhile isNameA with hr3
  set w2 := r3.takeWhile isSpaceA with hw2
  set r4 := r3.dropWhile isSpaceA with hr4
  by_cases hg : (ds.isEmpty || w1.isEmpty || nm.isEmpty || w2.isEmpty) = true
  · rw [if_pos hg] at h
    simp at h
  · rw [if_neg hg] at h
    simp only [Bool.or_eq_true, not_or] at hg
    obtain ⟨⟨⟨hg1, hg2⟩, hg3⟩, hg4⟩ := hg
    cases hstat : statusOf r4 with
    | none => rw [hstat] at h; simp at h
    | some pr =>
      obtain ⟨st, r5⟩ := pr
      have e1 : cs = ds ++ r1 := by
        rw [hds, hr1]; exact (List.takeWhile_append_dropWhile _ _).symm
      have e2 : r1 = w1 ++ r2 := by
        rw [hw1, hr2]; exact (List.takeWhile_append_dropWhile _ _).symm
      have e3 : r2 = nm ++ r3 := by
        rw [hnm, hr3]; exact (List.takeWhile_append_dropWhile _ _).symm
      have e4 : r3 = w2 ++ r4 := by
        rw [hw2, hr4]; exact (List.takeWhile_append_dropWhile _ _).symm
      have hds_ne : ds ≠ [] := by
        intro hnil; rw [hnil] at hg1; exact hg1 rfl
      have hw1_ne : w1 ≠ [] := by
        intro hnil; rw [hnil] at hg2; exact hg2 rfl
      have hnm_ne : nm ≠ [] := by
        intro hnil; rw [hnil] at hg3; exact hg3 rfl
      have hw2_ne : w2 ≠ [] := by
        intro hnil; rw [hnil] at hg4; exact hg4 rfl
      have hdig : ∀ c ∈ ds, Char.isDigit c = true := by
        rw [hds]; intro c hc; exact List.mem_takeWhile_imp hc
      have hsp1 : ∀ c ∈ w1, isSpaceA c = true := by
        rw [hw1]; intro c hc; exact List.mem_takeWhile_imp hc
      have hname : ∀ c ∈ nm, isNameA c = true := by
        rw [hnm]; intro c hc; exact List.mem_takeWhile_imp hc
      have hsp2 : ∀ c ∈ w2, isSpaceA c = true := by
        rw [hw2]; intro c hc; exact List.mem_takeWhile_imp hc
      have hchain : trimA line = ds ++ (w1 ++ (nm ++ (w2 ++ r4))) := by
        rw [← hcs, e1, e2, e3, e4]
      rcases statusOf_eq_some hstat with ⟨hstv, hr45⟩ | ⟨hstv, hr45⟩ | ⟨hstv, hr45⟩
      · refine ⟨ds, w1, nm, w2, activeL, r5, ?_, hds_ne, hdig, hw1_ne, hsp1,
          hnm_ne, hname, hw2_ne, hsp2, Or.inl rfl⟩
        rw [hchain, hr45]
        simp [List.append_assoc]
      · refine ⟨ds, w1, nm, w2, actUnsupL, r5, ?_, hds_ne, hdig, hw1_ne, hsp1,
          hnm_ne, hname, hw2_ne, hsp2, Or.inr (Or.inl rfl)⟩
        rw [hchain, hr45]
        simp [List.append_assoc]
      · refine ⟨ds, w1, nm, w2, suspendedL, r5, ?_, hds_ne, hdig, hw1_ne, hsp1,
          hnm_ne, hname, hw2_ne, hsp2, Or.inr (Or.inr rfl)⟩
        rw [hchain, hr45]
        simp [List.append_assoc]

/-- **C4.** -/
theorem vlan_line_match_characterization :
    (∀ line : List Char,
      (matchVlanLine line).isSome = true ↔ specVlanLine line) ∧
    parseVlanBrief "20 B-2 active\n10 A_1 suspended Gi0/1\n10 A_1 suspended Gi0/1" =
      [⟨"20", "B-2", "active", []⟩,
       ⟨"10", "A_1", "suspended", ["Gi0/1"]⟩,
       ⟨"10", "A_1", "suspended", ["Gi0/1"]⟩] :=
  ⟨fun _ => ⟨spec_of_matchVlanLine_isSome, matchVlanLine_isSome_of_spec⟩,
   by decide⟩

end NetCourse
